import Mathlib

/-!
Shallow embedding of RpaKit's archive-format recognition and decoding engine.

The repository holds two evolutionary variants of the same program:
`src/rpakit.py` (v0.44, classes `RkDepotWork` / `RkMain`) and
`src/rpa_kit.py` (v0.16, classes `RPAKit` / `RKmain`).  Definitions below are
translated from those sources.  Names without a `RK` suffix embed
`src/rpakit.py`; names with a `RK` suffix embed the corresponding function of
`src/rpa_kit.py`.

Modelling conventions:
* bytes and decoded text are `List Nat` (byte values / character codes);
* Python's `str.__contains__` substring test is `hasSub`;
* `bytes.decode()` (UTF-8) is modelled for ASCII input: a byte list decodes
  iff all bytes are below 128 (all concrete headers used here are ASCII, and
  the RPA-1 fallback header `b"\x78\x9c..."` is not valid UTF-8 either way);
* `int(s, 16)` is `parseHex`: ASCII whitespace is stripped at both ends and
  the rest must be nonempty hex digits (signs and `0x` markers never occur in
  the slices the program takes);
* a raised Python exception that no handler in the program catches is an
  explicit `raised`/`none` outcome of the embedded function;
* `src/rpakit.py` is mid-rename: its methods read `self.rpaformats`,
  `self.rpaspecs`, `self._reg`, `self._header` and `self._version`, none of
  which exist (the class binds `_rpaformats`, `_rpaspecs`, `reg`, `header`,
  `version`), so each such read raises an `AttributeError` at runtime that no
  handler catches.  Functions suffixed `Src` embed those methods as written,
  with the absent attributes explicit (`attrRpaformats`, `attrRpaspecs`,
  `attrUnderscoreReg`); their unsuffixed siblings embed the same method
  bodies with each attribute name resolved to the class table the code
  plainly names, exhibiting the behavior the data tables encode.
-/

namespace RpaKit

/-- Character codes of an ASCII string literal. -/
def asciiOf (s : String) : List Nat := s.data.map Char.toNat

/-- `startsWith n h` is true iff `n` is an initial run of `h`. -/
def startsWith : List Nat → List Nat → Bool
  | [], _ => true
  | _ :: _, [] => false
  | a :: as, b :: bs => a == b && startsWith as bs

/-- Python's substring test `needle in hay`. -/
def hasSub (needle : List Nat) : List Nat → Bool
  | [] => startsWith needle []
  | c :: rest => startsWith needle (c :: rest) || hasSub needle rest

/-- ASCII whitespace, as stripped by Python's `int(s, 16)`. -/
def isSpaceB (c : Nat) : Bool :=
  c == 32 || c == 9 || c == 10 || c == 13 || c == 11 || c == 12

def stripWs (l : List Nat) : List Nat :=
  ((l.dropWhile isSpaceB).reverse.dropWhile isSpaceB).reverse

def isHexDigitB (c : Nat) : Bool :=
  (48 ≤ c && c ≤ 57) || (97 ≤ c && c ≤ 102) || (65 ≤ c && c ≤ 70)

def hexVal (c : Nat) : Nat :=
  if c ≤ 57 then c - 48 else if c ≤ 70 then c - 55 else c - 87

/-- Python `int(window, 16)`; `none` is the `ValueError` of a malformed
hex field. -/
def parseHex (l : List Nat) : Option Nat :=
  let t := stripWs l
  if t ≠ [] && t.all isHexDigitB then
    some (t.foldl (fun a c => a * 16 + hexVal c) 0)
  else none

/-- Python slice `l[a:b]` (`b = none` is an open end). -/
def sliceAB (l : List Nat) (a : Nat) (b : Option Nat) : List Nat :=
  match b with
  | none => l.drop a
  | some b => (l.take b).drop a

/-- One resolved-version dict: the keys a `_rpaformats` row contributes
(`rpaid`, optional `alias`, `desc`). -/
structure VRec where
  rpaid : String
  als : Option String
  desc : String
deriving DecidableEq, Repr

/-- One `_rpaformats` catalog row: magic token plus the row's value dict. -/
structure CatEntry where
  tok : String
  rpaid : String
  als : Option String := none
  desc : String := ""
deriving DecidableEq, Repr

/-- `RkDepotWork._rpaformats` (src/rpakit.py), in source order. -/
def rpaformats : List CatEntry :=
  [⟨"x", "rpa1", none, "Legacy type RPA-1.0"⟩,
   ⟨"RPA-2.0 ", "rpa2", none, "Legacy type RPA-2.0"⟩,
   ⟨"RPA-3.0 ", "rpa3", none, "Standard type RPA-3.0"⟩,
   ⟨"RPA-3.0rk", "rpa3rk", some "RPA 3 rk", "Custom type of RPA-3.0 with reversed key"⟩,
   ⟨"RPI-3.0", "rpa32", some "rpi3", "Custom type RPI-3.0"⟩,
   ⟨"RPA-3.1", "rpa3", some "rpa31", "Custom type RPA-3.1, a alias of RPA-3.0"⟩,
   ⟨"RPA-3.2", "rpa32", none, "Custom type RPA-3.2"⟩,
   ⟨"RPA-4.0", "rpa3", some "rpa4", "Custom type RPA-4.0, a alias of RPA-3.0"⟩,
   ⟨"ALT-1.0", "alt1", some "ALT 1", "Custom type ALT-1.0"⟩,
   ⟨"ZiX-12A", "zix12a", some "ZIX 12a", "Custom type ZiX-12A"⟩,
   ⟨"ZiX-12B", "zix12b", some "ZIX 12b", "Custom type ZiX-12B"⟩]

/-- `RPAKit.rpaformats` (src/rpa_kit.py): no `x` row, no `RPA-3.0rk` row,
no `desc` fields. -/
def rpaformatsRK : List CatEntry :=
  [⟨"RPA-2.0 ", "rpa2", none, ""⟩,
   ⟨"RPA-3.0 ", "rpa3", none, ""⟩,
   ⟨"RPI-3.0", "rpa32", some "rpi3", ""⟩,
   ⟨"RPA-3.1", "rpa3", some "rpa31", ""⟩,
   ⟨"RPA-3.2", "rpa32", none, ""⟩,
   ⟨"RPA-4.0", "rpa3", some "rpa4", ""⟩,
   ⟨"ALT-1.0", "alt1", none, ""⟩,
   ⟨"ZiX-12A", "zix12a", none, ""⟩,
   ⟨"ZiX-12B", "zix12b", none, ""⟩]

/-- The dict lookup the reclassification line of `get_cipher` names
(`rpaformats['RPA-3.0rk']`), over the class table `_rpaformats`.  In the
source the enclosing `self.rpaformats` read raises first — `getCipherSrc`
models that; `getCipher` uses this lookup to exhibit the behavior with the
table name resolved. -/
def lookupFmt (s : String) : Option CatEntry := rpaformats.find? (·.tok == s)

/-- `self.version.update(val)`: keys present in `val` overwrite, `alias`
survives when the new row has none. -/
def updateV : Option VRec → CatEntry → VRec
  | none, e => ⟨e.rpaid, e.als, e.desc⟩
  | some v, e =>
    ⟨e.rpaid, match e.als with | some a => some a | none => v.als, e.desc⟩

/-- Python `s in version.values()` over the keys a catalog row contributes. -/
def valuesContain (v : VRec) (s : String) : Bool :=
  v.rpaid == s || v.als == some s || v.desc == s

def vContains : Option VRec → String → Bool
  | none, _ => false
  | some r, s => valuesContain r s

/-- `RkDepotWork.get_header_start` (src/rpakit.py): decode the header line;
on `UnicodeDecodeError`, headers that are not 34/36 bytes long and start with
the zlib magic `\x78\x9c` decode their first two bytes as cp1252
(`'x'` = 120, `'\x9c'` = U+0153), otherwise the magic is empty. -/
def getHeaderStart (header : List Nat) : List Nat :=
  if header.all (fun c => decide (c < 128)) then header
  else if !(header.length == 34 || header.length == 36) &&
          startsWith [120, 156] header then
    [120, 339]
  else []

/-- Outcome of `RkDepotWork.guess_version`: `ok` sets `dep_initstate = True`,
`bogus` sets it `False` (caught `NoRpaOrUnknownWarning`/`NotImplementedError`),
`raised` is an exception escaping the method.  In the source as written an
`AttributeError` from the `self.rpaformats` read precedes everything (see
`guessVersionSrc`); with the table name resolved, the ambiguity branch's
`AmbiguousHeaderError(self.version)` call misses its required `dep` argument
(`TypeError`, uncaught), and both bogus messages build f-strings reading the
absent `self._header` (lines 78 and 462), so in the source the `bogus`
verdicts too end in uncaught errors. -/
inductive GOut
  | ok
  | bogus
  | raised
deriving DecidableEq, Repr

/-- `RkDepotWork.guess_version` (src/rpakit.py) with the catalog attribute
name resolved to the class table `_rpaformats` (as written the read raises —
`guessVersionSrc`).  `v0`/`fid0` are the incoming `self.version` and
`count['fid_found']` values: the method does not reset them, it only
accumulates on top. -/
def guessVersion (v0 : Option VRec) (fid0 : Nat) (header : List Nat)
    (suffix : String) : Option VRec × Nat × GOut :=
  let magic := getHeaderStart header
  let p := rpaformats.foldl
    (fun (p : Option VRec × Nat) e =>
      if hasSub (asciiOf e.tok) magic then (some (updateV p.1 e), p.2 + 1) else p)
    (v0, fid0)
  if vContains p.1 "rpa1" && !(suffix == ".rpi") then
    (none, p.2, .ok)
  else if p.1.isNone then
    (p.1, p.2, .bogus)
  else if p.2 > 1 then
    (p.1, p.2, .raised)
  else if vContains p.1 "zix12a" || vContains p.1 "zix12b" then
    (p.1, p.2, .bogus)
  else
    (p.1, p.2, .ok)

/-- Attribute lookup `self.rpaformats` on an `RkDepotWork` instance: the class
defines only `_rpaformats` (src/rpakit.py:273) and no instance assignment or
property supplies `rpaformats`, so the lookup fails (`AttributeError`). -/
def attrRpaformats : Option (List CatEntry) := none

/-- `RkDepotWork.guess_version` as written (src/rpakit.py:439-470): the
catalog loop opens with a read of `self.rpaformats` (line 445); the attribute
does not exist, so every call raises an uncaught `AttributeError` (none of
the method's `except` clauses covers it) before any token is matched.  Were
the attribute bound — necessarily to the class table `_rpaformats` — the rest
of the method is `guessVersion`. -/
def guessVersionSrc (v0 : Option VRec) (fid0 : Nat) (header : List Nat)
    (suffix : String) : Option VRec × Nat × GOut :=
  let _magic := getHeaderStart header
  match attrRpaformats with
  | none => (v0, fid0, .raised)
  | some _ => guessVersion v0 fid0 header suffix

/-- `RPAKit.get_header_start` (src/rpa_kit.py): only the first 12 bytes are
decoded; a decode error yields an empty magic. -/
def getHeaderStartRK (header : List Nat) : List Nat :=
  if (header.take 12).all (fun c => decide (c < 128)) then header.take 12
  else []

/-- Outcome of `RPAKit.guess_version`: either a resolved version dict, or an
exception escaping the method (its `except` handler calls
`self.inf(..., warn=True)`, an unknown keyword argument, so the intended
bogus-flag path raises `TypeError` instead of returning). -/
inductive RKOut
  | resolved (v : VRec)
  | crashed
deriving DecidableEq, Repr

/-- `RPAKit.guess_version` (src/rpa_kit.py).  `self.version` is reset to `{}`
on entry; each catalog match replaces the whole dict (last match wins); zero
matches resolve to `rpa1` when the file suffix is `.rpi`. -/
def guessVersionRK (header : List Nat) (suffix : String) : RKOut :=
  let magic := getHeaderStartRK header
  let v := rpaformatsRK.foldl
    (fun (acc : Option VRec) e =>
      if hasSub (asciiOf e.tok) magic then some ⟨e.rpaid, e.als, e.desc⟩ else acc)
    none
  match v with
  | none => if suffix == ".rpi" then .resolved ⟨"rpa1", none, ""⟩ else .crashed
  | some r =>
    if valuesContain r "zix12a" || valuesContain r "zix12b" then .crashed
    else .resolved r

/-- The `'offset'` value of a `_rpaspecs` row: the literal int `0` (rpa1) or a
slice object. -/
inductive OfsSpec
  | int0
  | sl (a : Nat) (b : Option Nat)
deriving DecidableEq, Repr

/-- One `_rpaspecs` row (src/rpakit.py).  `key = none` models the Python value
`None`; `keyOrg`/`hasKeyRv`/`key2` model presence of the `'key_org'`,
`'key_rv'` and `'key2'` dict keys. -/
structure SpecRec where
  ofs : OfsSpec
  key : Option (Nat × Nat)
  keyOrg : Option Nat := none
  hasKeyRv : Bool := false
  key2 : Option Nat := none
deriving DecidableEq, Repr

/-- `RkDepotWork._rpaspecs` (src/rpakit.py).  The `rpa1`/`rpa2`/`rpa3`/
`rpa32`/`alt1` rows of `RPAKit.rpaspecs` (src/rpa_kit.py) carry the same
offset/key windows; only `key_org`/`key_rv` are missing there. -/
def rpaspecs : List (String × SpecRec) :=
  [("rpa1", ⟨.int0, none, none, false, none⟩),
   ("rpa2", ⟨.sl 8 none, none, none, false, none⟩),
   ("rpa3", ⟨.sl 8 (some 24), some (25, 33), some 1111638594, true, none⟩),
   ("rpa32", ⟨.sl 8 (some 24), some (27, 35), none, false, none⟩),
   ("alt1", ⟨.sl 17 (some 33), some (8, 16), none, false, some 0xDABE8DF0⟩)]

/-- The row lookup `get_version_specs` performs over the class table
`_rpaspecs` (the loop with `break`): no row means the version dict is left
without `'offset'`/`'key'` entries.  As written the method's `self.rpaspecs`
read raises before the loop runs — see `attrRpaspecs`/`getVersionSpecsSrc`. -/
def lookupSpec (rid : String) : Option SpecRec :=
  (rpaspecs.find? (fun p => p.1 == rid)).map (·.2)

/-- Attribute lookup `self.rpaspecs`: only `_rpaspecs` (src/rpakit.py:304)
exists, so the lookup fails (`AttributeError`). -/
def attrRpaspecs : Option (List (String × SpecRec)) := none

/-- `RkDepotWork.get_version_specs` as written (src/rpakit.py:407-415): the
loop header reads `self.rpaspecs` (line 410), absent — an uncaught
`AttributeError` on every call (the method's only handler catches `KeyError`,
and even that handler would `raise` a plain string, itself a `TypeError`).
Were the attribute bound to `_rpaspecs`, the lookup is `lookupSpec`. -/
def getVersionSpecsSrc (rid : String) : Option (Option SpecRec) :=
  match attrRpaspecs with
  | none => none
  | some _ => some (lookupSpec rid)

/-- Outcome of `get_cipher`: `ok offset key version` or an exception escaping
the method.  Every handler in `get_cipher` executes `raise f"..."`, and
raising a plain string is itself a `TypeError`, so any caught
`LookupError`/`ValueError`/`TypeError` still escapes as an uncaught
exception. -/
inductive CipherOut
  | ok (ofs : Nat) (key : Option Nat) (v : VRec)
  | raised
deriving DecidableEq, Repr

/-- `RkDepotWork.get_cipher` (src/rpakit.py) with the reclassification line's
attribute name resolved.  The two guards are NOT nested: `offset` is parsed
unless the id is `rpa1`, and `key` is parsed unless the id is `rpa2` — so for
`rpa1` the line `int(self.header[slky], 16)` runs with `slky = None` and
raises `TypeError` (`self.header[None]`).  For `rpa3`, a key that differs
from `key_org` is re-parsed from the byte-reversed window
(`key_rv = slice(None, None, -1)`) and the version dict is updated with the
catalog row the code names as `rpaformats['RPA-3.0rk']` — as written that
`self.rpaformats` read raises; `getCipherSrc` models it. -/
def getCipher (v : VRec) (sp : Option SpecRec) (header : List Nat) : CipherOut :=
  match sp with
  | none => .raised
  | some s =>
    let ofsRes : Option Nat :=
      if v.rpaid == "rpa1" then some 0
      else
        match s.ofs with
        | .int0 => none
        | .sl a b => parseHex (sliceAB header a b)
    match ofsRes with
    | none => .raised
    | some ofs =>
      if v.rpaid == "rpa2" then .ok ofs none v
      else
        match s.key with
        | none => .raised
        | some (a, b) =>
          match parseHex (sliceAB header a (some b)) with
          | none => .raised
          | some k =>
            if v.rpaid == "rpa3" then
              match s.keyOrg with
              | none => .raised
              | some ko =>
                if k == ko then .ok ofs (some k) v
                else if s.hasKeyRv then
                  match parseHex ((sliceAB header a (some b)).reverse) with
                  | none => .raised
                  | some kr =>
                    match lookupFmt "RPA-3.0rk" with
                    | none => .raised
                    | some e => .ok ofs (some kr) (updateV (some v) e)
                else .raised
            else .ok ofs (some k) v

/-- `RPAKit.get_cipher` (src/rpa_kit.py).  Unlike `src/rpakit.py`, the key
guard is nested inside the offset guard, so the `rpa1` id returns
`(0, None)` without touching the header. -/
def getCipherRK (v : VRec) (sp : Option SpecRec) (header : List Nat) : CipherOut :=
  match sp with
  | none => .raised
  | some s =>
    if v.rpaid == "rpa1" then .ok 0 none v
    else
      let ofsRes : Option Nat :=
        match s.ofs with
        | .int0 => none
        | .sl a b => parseHex (sliceAB header a b)
      match ofsRes with
      | none => .raised
      | some ofs =>
        if v.rpaid == "rpa2" then .ok ofs none v
        else
          match s.key with
          | none => .raised
          | some (a, b) =>
            match parseHex (sliceAB header a (some b)) with
            | none => .raised
            | some k => .ok ofs (some k) v

/-- `RkDepotWork.get_cipher` as written (src/rpakit.py:368-392): identical to
`getCipher` up to the reclassification line 383, where
`self.version.update(self.rpaformats['RPA-3.0rk'])` reads the absent
`self.rpaformats` and raises an uncaught `AttributeError` — the reversed key
of line 382 is computed, then discarded by the crash, so the method never
returns on that path. -/
def getCipherSrc (v : VRec) (sp : Option SpecRec) (header : List Nat) :
    CipherOut :=
  match sp with
  | none => .raised
  | some s =>
    let ofsRes : Option Nat :=
      if v.rpaid == "rpa1" then some 0
      else
        match s.ofs with
        | .int0 => none
        | .sl a b => parseHex (sliceAB header a b)
    match ofsRes with
    | none => .raised
    | some ofs =>
      if v.rpaid == "rpa2" then .ok ofs none v
      else
        match s.key with
        | none => .raised
        | some (a, b) =>
          match parseHex (sliceAB header a (some b)) with
          | none => .raised
          | some k =>
            if v.rpaid == "rpa3" then
              match s.keyOrg with
              | none => .raised
              | some ko =>
                if k == ko then .ok ofs (some k) v
                else if s.hasKeyRv then
                  match parseHex ((sliceAB header a (some b)).reverse) with
                  | none => .raised
                  | some kr =>
                    match attrRpaformats with
                    | none => .raised
                    | some fmts =>
                      match fmts.find? (fun e => e.tok == "RPA-3.0rk") with
                      | none => .raised
                      | some e => .ok ofs (some kr) (updateV (some v) e)
                else .raised
            else .ok ofs (some k) v

/-- One register value tuple as the deserialized index holds it.  The tuple is
`(ofs, lng, *rest)`: `rest = []` is a 2-tuple `(offset, length)`,
`rest = [p]` a 3-tuple with prefix bytes `p`, and longer `rest` the result of
appending `(b'',)` to an already 3-element tuple. -/
structure SegT where
  ofs : Nat
  lng : Nat
  rest : List (List Nat)
deriving DecidableEq, Repr

/-- A register: archive paths mapped to their segment tuples. -/
abbrev Reg := List (String × List SegT)

/-- `RkDepotWork.unify_reg` body for one value list: `if len(val[0]) == 2`,
append `(b'',)` to every tuple of the list.  `val[0]` on an empty list is an
uncaught `IndexError` (`none`). -/
def unifyVal : List SegT → Option (List SegT)
  | [] => none
  | s0 :: tl =>
    some (if s0.rest = [] then
            (s0 :: tl).map (fun s => ⟨s.ofs, s.lng, s.rest ++ [[]]⟩)
          else s0 :: tl)

/-- `RPAKit.unify_reg` (src/rpa_kit.py:138-143), which iterates
`self.reg.values()`: arrange the register in common form.  The rpakit.py
variant shares this body text but iterates `self._reg` — see
`unifyRegSrc`. -/
def unifyReg : Reg → Option Reg
  | [] => some []
  | (p, v) :: tl =>
    match unifyVal v, unifyReg tl with
    | some v', some tl' => some ((p, v') :: tl')
    | _, _ => none

/-- Attribute lookup `self._reg` on an `RkDepotWork` instance: `__init__` and
`collect_register` assign `self.reg`, never `_reg`, so the lookup fails
(`AttributeError`). -/
def attrUnderscoreReg : Option Reg := none

/-- `RkDepotWork.unify_reg` as written (src/rpakit.py:361-366): iterates
`self._reg.values()`; the attribute was never assigned, so every call raises
an uncaught `AttributeError` and no tuple is ever rewritten in that
variant. -/
def unifyRegSrc : Option Reg :=
  match attrUnderscoreReg with
  | none => none
  | some r => unifyReg r

/-- One step of `unscrample_reg`'s comprehension: unpacking
`offset, leg, prefix` demands an exact 3-tuple (otherwise an uncaught
`ValueError`), then offset and length are XORed with the key. -/
def unscrambleSeg (k : Nat) (s : SegT) : Option SegT :=
  match s.rest with
  | [p] => some ⟨s.ofs ^^^ k, s.lng ^^^ k, [p]⟩
  | _ => none

def unscrambleVal (k : Nat) : List SegT → Option (List SegT)
  | [] => some []
  | s :: tl =>
    match unscrambleSeg k s, unscrambleVal k tl with
    | some s', some tl' => some (s' :: tl')
    | _, _ => none

/-- `RkDepotWork.unscrample_reg` (src/rpakit.py). -/
def unscrambleReg (k : Nat) : Reg → Option Reg
  | [] => some []
  | (p, v) :: tl =>
    match unscrambleVal k v, unscrambleReg k tl with
    | some v', some tl' => some ((p, v') :: tl')
    | _, _ => none

/-- Tail of `RPAKit.collect_register` (src/rpa_kit.py:171-175) after the
index bytes are deserialized: `unify_reg` first, then — only if a key was
resolved — the optional `key2` XOR and `unscrample_reg`.  The rpakit.py
`collect_register` has the same tail in its text but never reaches the
descrambling: its `self.unify_reg()` call raises (see `unifyRegSrc`,
`collectRegisterSrc`). -/
def regPipe (raw : Reg) (key : Option Nat) (key2 : Option Nat) : Option Reg :=
  (unifyReg raw).bind fun r =>
    match key with
    | none => some r
    | some k =>
      unscrambleReg (match key2 with | some c => k ^^^ c | none => k) r

/-- Python `of.read(n)` on a binary file after `of.seek(pos)`:
`n = -1` reads to EOF, any other negative `n` raises
`ValueError: read length must be non-negative or -1`, and a nonnegative `n`
reads at most `n` bytes. -/
def pyRead (file : List Nat) (pos : Nat) (n : Int) : Option (List Nat) :=
  if n = -1 then some (file.drop pos)
  else if n < 0 then none
  else some ((file.drop pos).take n.toNat)

/-- `of.read(n)` for the always-nonnegative counts of the multi-segment loop
(`leg` comes from the register). -/
def pyReadN (file : List Nat) (pos n : Nat) : List Nat :=
  (file.drop pos).take n

/-- Python `sep.join(parts)`. -/
def joinSep (sep : List Nat) : List (List Nat) → List Nat
  | [] => []
  | [x] => x
  | x :: y :: rest => x ++ sep ++ joinSep sep (y :: rest)

/-- One iteration of the multi-segment loop of `extract_data`: seek to the
segment's offset, append the full-length read to `part`, and rebind
`tmp_file = prefix.join(part)` with THIS segment's prefix. -/
def multiStep (file : List Nat) (st : List (List Nat) × Option (List Nat))
    (s : Nat × Nat × List Nat) : List (List Nat) × Option (List Nat) :=
  let part := st.1 ++ [pyReadN file s.1 s.2.1]
  (part, some (joinSep s.2.2 part))

/-- `RkDepotWork.extract_data` (src/rpakit.py) = `RPAKit.extract_data`
(src/rpa_kit.py), reading from the opened container bytes `file` (the
`.rpi → .rpa` re-suffixing only chooses which file is opened).  Segment
tuples are the normalized `(offset, leg, prefix)` triples the register holds
after `unify_reg`.  `none` is an uncaught exception: a negative read count
below `-1` in the single-segment branch, or the unbound `tmp_file`
(`NameError`) when the entry list is empty. -/
def extractData (file : List Nat) (segs : List (Nat × Nat × List Nat)) :
    Option (List Nat) :=
  if segs.length == 1 then
    match segs with
    | [(ofs, lng, pre)] =>
      (pyRead file ofs ((lng : Int) - pre.length)).map (fun d => pre ++ d)
    | _ => none
  else
    (segs.foldl (multiStep file) ([], none)).2

/-- One queued archive file.  `header` is the first line `get_header` reads;
`payload ofs` models `pickle.loads(zlib.decompress(of.read()))` after seeking
to `ofs` — `none` is a decompression/deserialization failure (uncaught). -/
structure Depot where
  name : String
  suffix : String
  header : List Nat
  payload : Nat → Option Reg

/-- The mutable per-depot fields of `RkDepotWork`/`RkMain` that
`clear_rk_vars` is responsible for resetting (`self.header`, `self.version`
split into its catalog and spec parts, `count['fid_found']`, `self.reg`,
`self.dep_initstate`). -/
structure DState where
  version : Option VRec
  spec : Option SpecRec
  fid : Nat
  header : Option (List Nat)
  reg : Reg
  init : Option Bool

/-- The state `__init__` and `clear_rk_vars` establish. -/
def cleanState : DState := ⟨none, none, 0, none, [], none⟩

/-- `RkDepotWork.collect_register` as written (src/rpakit.py:394-405):
`get_cipher` (as written), then seek + read + decompress + deserialize, then
`self.unify_reg()` — which raises `AttributeError` on `self._reg`, so the
method can never return a register and the descrambling below the call is
dead code.  The impossible success tail is the normalized `regPipe`.
`none` is an exception escaping the method. -/
def collectRegisterSrc (v : VRec) (sp : Option SpecRec) (d : Depot) :
    Option (VRec × Reg) :=
  match getCipherSrc v sp d.header with
  | .raised => none
  | .ok ofs key v' =>
    (d.payload ofs).bind fun raw =>
      (match attrUnderscoreReg with
       | none => none
       | some _ => regPipe raw key (sp.bind (·.key2))).map fun r => (v', r)

/-- How `rk_control` reacts to `init_depot`: `proceed` runs the task,
`skip` is the `dep_initstate is False` `continue`, `raised` is an uncaught
exception terminating the run. -/
inductive InitOut
  | proceed
  | skip
  | raised
deriving DecidableEq, Repr

/-- `RkDepotWork.init_depot` (src/rpakit.py) over the as-written methods:
`get_header` stores the header, then `guess_version` raises on every call
(`init_depot` catches only `OSError`), so nothing below is ever reached.  The
dead branches still mirror the source text: an empty version dict at
`get_version_specs` would be a `KeyError` whose handler itself raises
(`raise f"..."`, a plain string, hence `TypeError`); and after either
verdict, the alias/official message of lines 542-546 builds an f-string
reading the absent `self._version` whenever an alias key is present, raising
before `inf` can even check the verbosity. -/
def initDepotSrc (st : DState) (d : Depot) : DState × InitOut :=
  let st1 : DState := {st with header := some d.header}
  let g := guessVersionSrc st1.version st1.fid d.header d.suffix
  let st2 : DState := {st1 with version := g.1, fid := g.2.1}
  match g.2.2 with
  | .raised => (st2, .raised)
  | .bogus =>
    let st3 : DState := {st2 with init := some false}
    if (g.1.bind VRec.als).isSome then (st3, .raised) else (st3, .skip)
  | .ok =>
    let st3 : DState := {st2 with init := some true}
    match st3.version with
    | none => (st3, .raised)
    | some v =>
      match getVersionSpecsSrc v.rpaid with
      | none => (st3, .raised)
      | some sp =>
        let st4 : DState := {st3 with spec := sp}
        match collectRegisterSrc v sp d with
        | none => (st4, .raised)
        | some (v', r) =>
          let st5 : DState := {st4 with version := some v', reg := r}
          if v'.als.isSome then (st5, .raised) else (st5, .proceed)

/-- Result of a whole `rk_control` run over the queue: the names of the
depots whose task ran, and — when an exception escapes — the names of the
depots still queued and never processed. -/
inductive RunOut
  | done (processed : List String)
  | crashed (processed unprocessed : List String)
deriving DecidableEq, Repr

/-- The `while self.dep_lst` loop of `RkMain.rk_control` (src/rpakit.py) over
the pop order: no handler surrounds `init_depot`, so a raised error aborts
the whole loop with the still-queued depots unprocessed.  In the (dead)
non-raising branches, a bogus depot `continue`s WITHOUT `clear_rk_vars` and a
processed depot ends with `clear_rk_vars` (restoring `cleanState`). -/
def rkLoopSrc (st : DState) (acc : List String) : List Depot → RunOut
  | [] => .done acc.reverse
  | d :: rest =>
    match initDepotSrc st d with
    | (_, .raised) => .crashed acc.reverse (rest.map Depot.name)
    | (st', .skip) => rkLoopSrc st' acc rest
    | (_, .proceed) => rkLoopSrc cleanState (d.name :: acc) rest

/-- `RkMain.rk_control` loop: `self.dep_lst.pop()` takes the LAST queue
element, so the loop works through the reversed queue. -/
def rkControlSrc (queue : List Depot) : RunOut :=
  rkLoopSrc cleanState [] queue.reverse

/-- A well-formed RPA-2.0 depot: header `b"RPA-2.0 10"`, index at offset
0x10 holding one normalized entry. -/
def depotRpa2 : Depot :=
  ⟨"game.rpa", ".rpa", asciiOf "RPA-2.0 10",
   fun n => if n == 16 then some [("f", [⟨0, 4, [[]]⟩])] else none⟩

/-- An RPA-3.0 depot whose offset window holds non-hex text (a recognized
format with a corrupt cipher field — though the as-written `guess_version`
raises before the field could even be parsed). -/
def depotBadHex : Depot :=
  ⟨"bad.rpa", ".rpa", asciiOf "RPA-3.0 ZZZZZZZZZZZZZZZZ q", fun _ => none⟩

/-- A header whose decoded text holds two distinct magic tokens. -/
def ambigHeader : List Nat := asciiOf "RPA-2.0 RPA-3.0 \n"

/-- The version dict the `x` catalog row yields (resolved `rpa1`). -/
def rpa1V : VRec := ⟨"rpa1", none, "Legacy type RPA-1.0"⟩

/-- The version dict the `RPA-3.0 ` catalog row yields. -/
def rpa3V : VRec := ⟨"rpa3", none, "Standard type RPA-3.0"⟩

/-- The version dict after the `RPA-3.0rk` reclassification update. -/
def rpa3rkV : VRec :=
  ⟨"rpa3rk", some "RPA 3 rk", "Custom type of RPA-3.0 with reversed key"⟩

/-- A register entry mixing a 3-tuple first segment with a 2-tuple second
segment. -/
def regMixed : Reg := [("f", [⟨0, 1, [[]]⟩, ⟨2, 3, []⟩])]

/-- A register with one all-2-tuple entry and one all-3-tuple entry. -/
def regUni : Reg := [("a", [⟨1, 2, []⟩]), ("b", [⟨3, 4, [[7]]⟩])]

/-- The rewrite `unify_reg` is meant to perform on one tuple: a 2-tuple gains
an empty prefix, other tuples stay as they are. -/
def fixSeg (s : SegT) : SegT :=
  if s.rest = [] then ⟨s.ofs, s.lng, [[]]⟩ else s

/-- Every entry is nonempty and arity-uniform: its tuples are all 2-tuples or
all 3-tuples (so the entry's first tuple is representative). -/
abbrev uniform23 (reg : Reg) : Prop :=
  ∀ e ∈ reg, e.2 ≠ [] ∧
    ((∀ s ∈ e.2, s.rest = []) ∨ (∀ s ∈ e.2, s.rest.length = 1))

/-- The prefix of the LAST segment of an entry (the separator
`prefix.join(part)` ends up using). -/
def lastPre (segs : List (Nat × Nat × List Nat)) : List Nat :=
  (segs.getLast?.map (fun s => s.2.2)).getD []

/-- A valid RPA-3.0 header: offset window `0x10`, key window `0x12345678`
(which differs from the `key_org` sentinel `0x42424242`). -/
def hdr3 : List Nat := asciiOf "RPA-3.0 0000000000000010 12345678"

/-! ## Theorems -/

/-- Folding the catalog over a magic that matches no token leaves the
accumulated version unchanged (`RPAKit.guess_version`'s loop). -/
theorem foldlMatchNone (m : List Nat) :
    ∀ (l : List CatEntry) (acc : Option VRec),
      (∀ e ∈ l, hasSub (asciiOf e.tok) m = false) →
      l.foldl (fun (acc : Option VRec) e =>
        if hasSub (asciiOf e.tok) m then some ⟨e.rpaid, e.als, e.desc⟩ else acc)
        acc = acc
  | [], _, _ => rfl
  | e :: tl, acc, h => by
    have he : hasSub (asciiOf e.tok) m = false := h e (by simp)
    rw [List.foldl_cons, if_neg (by simp [he])]
    exact foldlMatchNone m tl acc (fun x hx => h x (by simp [hx]))

/-- A nonnegative read count: `of.read(lng - len(pre))` returns the plain
bounded read when the prefix is no longer than the length. -/
theorem pyRead_toNat (file : List Nat) (ofs lng : Nat) (pre : List Nat)
    (h1 : pre.length ≤ lng) :
    pyRead file ofs ((lng : Int) - pre.length)
      = some (pyReadN file ofs (lng - pre.length)) := by
  have he : ((lng : Int) - pre.length) = ((lng - pre.length : Nat) : Int) := by
    omega
  rw [he]
  simp only [pyRead, pyReadN]
  rw [if_neg (by omega), if_neg (by omega)]
  simp

/-- The multi-segment loop of `extract_data`, run over a nonempty tail,
yields the parts joined with the LAST segment's prefix. -/
theorem foldJoin (file : List Nat) :
    ∀ (segs : List (Nat × Nat × List Nat)) (acc : List (List Nat))
      (t : Option (List Nat)), segs ≠ [] →
      (segs.foldl (multiStep file) (acc, t)).2
        = some (joinSep (lastPre segs)
            (acc ++ segs.map (fun s => pyReadN file s.1 s.2.1)))
  | [], _, _, h => absurd rfl h
  | [s], acc, t, _ => by
    simp [multiStep, lastPre, joinSep]
  | s :: s' :: rest, acc, t, _ => by
    have ih := foldJoin file (s' :: rest) (acc ++ [pyReadN file s.1 s.2.1])
      (some (joinSep s.2.2 (acc ++ [pyReadN file s.1 s.2.1]))) (by simp)
    simp only [List.foldl_cons] at ih ⊢
    rw [show multiStep file (acc, t) s
        = (acc ++ [pyReadN file s.1 s.2.1],
           some (joinSep s.2.2 (acc ++ [pyReadN file s.1 s.2.1]))) from rfl]
    rw [ih]
    simp [lastPre, List.getLast?_cons_cons, List.append_assoc]

/-- An entry whose tuples are uniformly 2-tuples or uniformly 3-tuples is
normalised by `unify_reg`'s per-value step exactly as `fixSeg` describes. -/
theorem unifyVal_uniform (v : List SegT) (hne : v ≠ [])
    (hc : (∀ s ∈ v, s.rest = []) ∨ (∀ s ∈ v, s.rest.length = 1)) :
    unifyVal v = some (v.map fixSeg) := by
  match v, hne with
  | s0 :: tl, _ =>
    rcases hc with h2 | h3
    · have h0 : s0.rest = [] := h2 s0 (by simp)
      simp only [unifyVal, if_pos h0]
      congr 1
      apply List.map_congr_left
      intro s hs
      simp [fixSeg, h2 s hs]
    · have h0 : s0.rest ≠ [] := by
        have h1 := h3 s0 (by simp)
        intro hr
        rw [hr] at h1
        simp at h1
      simp only [unifyVal, if_neg h0]
      have hmap : (s0 :: tl).map fixSeg = s0 :: tl := by
        conv_rhs => rw [← List.map_id (s0 :: tl)]
        apply List.map_congr_left
        intro s hs
        have h1 := h3 s hs
        have hsr : s.rest ≠ [] := by
          intro hr
          rw [hr] at h1
          simp at h1
        simp [fixSeg, hsr]
      rw [hmap]

/-- `unify_reg` over an arity-uniform register rewrites exactly the 2-tuple
entries, each gaining an empty prefix. -/
theorem unifyReg_uniform : ∀ (reg : Reg), uniform23 reg →
    unifyReg reg = some (reg.map (fun e => (e.1, e.2.map fixSeg)))
  | [], _ => rfl
  | (p, v) :: tl, hU => by
    have hh := hU (p, v) (by simp)
    have ht := unifyReg_uniform tl (fun e he => hU e (by simp [he]))
    simp only [unifyReg]
    rw [unifyVal_uniform v hh.1 hh.2, ht]
    rfl

/-- C1: the spec says a header matching two or more distinct catalog magic
tokens yields the `AmbiguousFormat` bogus outcome and is never silently
resolved.  On the header `"RPA-2.0 RPA-3.0 \n"` (both tokens present,
`fid_found = 2`), `RkDepotWork.guess_version` reaches its ambiguity branch,
but `raise AmbiguousHeaderError(self.version)` omits the constructor's
required `dep` argument, so a `TypeError` escapes the method instead of any
bogus verdict: the depot is indeed not silently resolved, but the outcome is
an uncaught exception, not the `AmbiguousFormat` skip the spec requires. -/
theorem guess_version_ambiguous_raises :
    guessVersion none 0 ambigHeader ".rpa"
      = (some ⟨"rpa3", none, "Standard type RPA-3.0"⟩, 2, GOut.raised) := by
  decide

/-- C2 counterexample: zero catalog matches with suffix `.rpi` do NOT resolve
to `rpa1` in `RkDepotWork.guess_version` (src/rpakit.py, also cited by the
claim): as written the method raises an uncaught `AttributeError`
(`self.rpaformats`) before any matching, and even with the table name
resolved the zero-match header takes the no-format branch regardless of the
suffix — never the legacy format. -/
theorem guess_version_rpi_src_counterexample :
    (∀ e ∈ rpaformats,
      hasSub (asciiOf e.tok) (getHeaderStart (asciiOf "junkdata\n")) = false)
    ∧ guessVersionSrc none 0 (asciiOf "junkdata\n") ".rpi" = (none, 0, .raised)
    ∧ guessVersion none 0 (asciiOf "junkdata\n") ".rpi" = (none, 0, .bogus) := by
  decide

/-- C2 (amended): suffix-driven recognition lives only in
`RPAKit.guess_version` (src/rpa_kit.py): a candidate whose header matches
zero catalog magic tokens but whose suffix is `.rpi` resolves there to the
legacy `rpa1` format instead of the no-format outcome.
`RkDepotWork.guess_version` (src/rpakit.py) never resolves by suffix: as
written it raises on every call, for any incoming state. -/
theorem guess_version_rpi_suffix_legacy (header : List Nat) (suffix : String)
    (hz : ∀ e ∈ rpaformatsRK,
      hasSub (asciiOf e.tok) (getHeaderStartRK header) = false)
    (hs : suffix = ".rpi") :
    guessVersionRK header suffix = .resolved ⟨"rpa1", none, ""⟩
    ∧ ∀ (v0 : Option VRec) (fid0 : Nat),
        guessVersionSrc v0 fid0 header suffix = (v0, fid0, .raised) := by
  constructor
  · subst hs
    simp only [guessVersionRK]
    rw [foldlMatchNone (getHeaderStartRK header) rpaformatsRK none hz]
    rfl
  · intro v0 fid0
    rfl

/-- C2 witness: a concrete header with no magic token and suffix `.rpi`. -/
theorem guess_version_rpi_suffix_legacy_witness :
    (∀ e ∈ rpaformatsRK,
      hasSub (asciiOf e.tok) (getHeaderStartRK (asciiOf "junkdata\n")) = false)
    ∧ (guessVersionRK (asciiOf "junkdata\n") ".rpi"
        = .resolved ⟨"rpa1", none, ""⟩
       ∧ ∀ (v0 : Option VRec) (fid0 : Nat),
          guessVersionSrc v0 fid0 (asciiOf "junkdata\n") ".rpi"
            = (v0, fid0, .raised)) :=
  ⟨by decide, guess_version_rpi_suffix_legacy (asciiOf "junkdata\n") ".rpi"
    (by decide) rfl⟩

/-- C3: the spec says a depot resolved to `rpa1` gets offset 0 and no key
without reading any header window.  In `RkDepotWork.get_cipher`
(src/rpakit.py) the key guard `rpaid != 'rpa2'` is not nested under the
`rpa1` guard, so `int(self.header[slky], 16)` runs with `slky = None` and a
`TypeError` escapes — cipher resolution never succeeds for `rpa1` there.
`RPAKit.get_cipher` (src/rpa_kit.py), whose guard IS nested, returns
`(0, None)` as the spec states, for every header. -/
theorem get_cipher_rpa1_divergence (header : List Nat) :
    getCipher rpa1V (lookupSpec "rpa1") header = .raised
    ∧ getCipherRK rpa1V (lookupSpec "rpa1") header = .ok 0 none rpa1V :=
  ⟨rfl, rfl⟩

/-- C4: the spec says an `rpa3` depot whose parsed key mismatches the
sentinel gets the same window re-parsed byte-reversed and the version
relabelled as the `rpa3rk` sibling with cipher behavior otherwise unchanged.
At the failing input `hdr3` (key `0x12345678` ≠ sentinel `0x42424242`), the
source computes the reversed key (line 382) but the very next line,
`self.version.update(self.rpaformats['RPA-3.0rk'])`, reads the absent
`self.rpaformats` and raises an uncaught `AttributeError`, so cipher
resolution never returns — while the table-resolved `getCipher`, with the
`RPA-3.0rk` catalog row that exists solely as this relabel target, exhibits
the intended reversed key `0x87654321` (= 2271560481), the unchanged offset
`0x10`, and the `rpa3rk` label. -/
theorem get_cipher_rpa3rk_divergence :
    getCipherSrc rpa3V (lookupSpec "rpa3") hdr3 = .raised
    ∧ getCipher rpa3V (lookupSpec "rpa3") hdr3
        = .ok 16 (some 2271560481) rpa3rkV := by
  decide

/-- C5 counterexample: in `RPAKit.unify_reg` (src/rpa_kit.py) only
`len(val[0])` is tested, so an entry whose FIRST tuple is a 3-tuple keeps its
later 2-tuples untouched; and in `RkDepotWork.unify_reg` (src/rpakit.py)
normalization never runs at all (`self._reg` is absent, every call raises).
Either way "every 2-tuple segment value is rewritten to a 3-tuple" fails on
this decoded register. -/
theorem unify_reg_mixed_left_untouched :
    (unifyReg regMixed = some regMixed
     ∧ ∃ e ∈ regMixed, ∃ s ∈ e.2, s.rest = [])
    ∧ unifyRegSrc = none := by
  decide

/-- C5 (amended): in `RPAKit` (src/rpa_kit.py), for every decoded register
whose entries are each arity-uniform (all 2-tuples or all 3-tuples — the
code inspects only `len(val[0])`), normalization rewrites every 2-tuple to a
3-tuple with an empty prefix (3-tuples unchanged), every resulting segment
is a 3-tuple, and `collect_register` applies XOR-descrambling only to this
normalized register (normalization first); in `RkDepotWork` (src/rpakit.py)
normalization never runs — `unify_reg` raises on the absent `self._reg`. -/
theorem unify_reg_uniform_normalizes (reg : Reg) (hU : uniform23 reg) :
    unifyReg reg = some (reg.map (fun e => (e.1, e.2.map fixSeg)))
    ∧ (∀ e ∈ reg.map (fun e => (e.1, e.2.map fixSeg)), ∀ s ∈ e.2,
        s.rest.length = 1)
    ∧ (∀ k key2, regPipe reg (some k) key2
        = unscrambleReg (match key2 with | some c => k ^^^ c | none => k)
            (reg.map (fun e => (e.1, e.2.map fixSeg))))
    ∧ unifyRegSrc = none := by
  refine ⟨unifyReg_uniform reg hU, ?_, ?_, rfl⟩
  · intro e he s hs
    simp only [List.mem_map] at he
    obtain ⟨e0, he0, rfl⟩ := he
    simp only [List.mem_map] at hs
    obtain ⟨s0, hs0, rfl⟩ := hs
    rcases (hU e0 he0).2 with h2 | h3
    · simp [fixSeg, h2 s0 hs0]
    · have h1 := h3 s0 hs0
      have hne : s0.rest ≠ [] := by
        intro hr
        rw [hr] at h1
        simp at h1
      simp [fixSeg, hne, h1]
  · intro k key2
    simp [regPipe, unifyReg_uniform reg hU]

/-- C5 witness: a register with one 2-tuple entry and one 3-tuple entry. -/
theorem unify_reg_uniform_normalizes_witness :
    uniform23 regUni
    ∧ unifyReg regUni = some [("a", [⟨1, 2, [[]]⟩]), ("b", [⟨3, 4, [[7]]⟩])] :=
  ⟨by decide, ((unify_reg_uniform_normalizes regUni (by decide)).1).trans
    (by decide)⟩

/-- C6: a single-segment entry `(ofs, lng, pre)` with `len(pre) ≤ lng` and
enough bytes in the container extracts to `pre ++ read(ofs, lng - len(pre))`,
whose byte length equals `lng`. -/
theorem extract_single_reads_and_length (file : List Nat) (ofs lng : Nat)
    (pre : List Nat) (h1 : pre.length ≤ lng)
    (h2 : ofs + (lng - pre.length) ≤ file.length) :
    extractData file [(ofs, lng, pre)]
      = some (pre ++ pyReadN file ofs (lng - pre.length))
    ∧ (pre ++ pyReadN file ofs (lng - pre.length)).length = lng := by
  constructor
  · show (pyRead file ofs ((lng : Int) - pre.length)).map
      (fun d => pre ++ d) = _
    rw [pyRead_toNat file ofs lng pre h1]
    rfl
  · simp only [pyReadN, List.length_append, List.length_take,
      List.length_drop]
    omega

/-- C6 witness: the spec's example `(offset 100, length 10, prefix "AB")` in
a 120-byte container yields a 10-byte result. -/
theorem extract_single_reads_and_length_witness :
    ([65, 66] : List Nat).length ≤ 10
    ∧ 100 + (10 - ([65, 66] : List Nat).length)
        ≤ (List.replicate 120 (7 : Nat)).length
    ∧ (extractData (List.replicate 120 7) [(100, 10, [65, 66])]
        = some ([65, 66] ++
            pyReadN (List.replicate 120 7) 100 (10 - ([65, 66] : List Nat).length))
       ∧ ([65, 66] ++
            pyReadN (List.replicate 120 7) 100
              (10 - ([65, 66] : List Nat).length)).length = 10) :=
  ⟨by decide, by decide,
   extract_single_reads_and_length (List.replicate 120 7) 100 10 [65, 66]
     (by decide) (by decide)⟩

/-- C7: a multi-segment entry extracts each segment's full `lng` bytes at
its offset, in order, and joins the reads with the last segment's prefix as
separator (the rebinding `tmp_file = prefix.join(part)` leaves the final
iteration's prefix in charge); for two segments this is
`read₁ ++ pre ++ read₂`, matching the spec's example. -/
theorem extract_multi_joins_with_last (file : List Nat)
    (segs : List (Nat × Nat × List Nat)) (h : 2 ≤ segs.length) :
    extractData file segs
      = some (joinSep (lastPre segs)
          (segs.map (fun s => pyReadN file s.1 s.2.1))) := by
  have hne : segs ≠ [] := by
    intro h0
    subst h0
    simp at h
  have hl : (segs.length == 1) = false := by
    simp
    omega
  simp only [extractData, hl, Bool.false_eq_true, if_false]
  rw [foldJoin file segs [] none hne]
  simp

/-- C7 witness: the spec's example segments `[(0,4,b""),(4,4,b"--")]` give
`read(0,4) ++ b"--" ++ read(4,4)`. -/
theorem extract_multi_joins_with_last_witness :
    2 ≤ ([((0 : Nat), (4 : Nat), ([] : List Nat)), (4, 4, [45, 45])]).length
    ∧ extractData [9, 8, 7, 6, 5, 4, 3, 2, 1, 0] [(0, 4, []), (4, 4, [45, 45])]
        = some [9, 8, 7, 6, 45, 45, 5, 4, 3, 2] :=
  ⟨by decide,
   (extract_multi_joins_with_last [9, 8, 7, 6, 5, 4, 3, 2, 1, 0]
     [(0, 4, []), (4, 4, [45, 45])] (by decide)).trans (by decide)⟩

/-- C8 counterexample: processing never continues past a failing depot.  With
`depotBadHex` popped first, the run crashes and `depotRpa2` is never
processed — in the source the crash fires already at `guess_version`'s
`self.rpaformats` read (before the malformed cipher field could be parsed),
and no handler in `rk_control` confines any failure to the one depot.  The
claim "the pipeline continues processing the remaining queued depots" is
false. -/
theorem pipeline_error_stops_run :
    rkControlSrc [depotRpa2, depotBadHex] = .crashed [] ["game.rpa"] := by
  decide

/-- C8 (amended): `rk_control` has no per-depot handler, so an uncaught error
while processing a depot terminates the whole run and every depot still
queued is never processed; in src/rpakit.py as written this happens on the
very first popped depot of every queue, since `guess_version` raises before
cipher resolution or register decoding is even reached. -/
theorem pipeline_raised_aborts_remaining (q : List Depot) (d : Depot) :
    rkControlSrc (q ++ [d]) = .crashed [] (q.reverse.map Depot.name) := by
  unfold rkControlSrc
  rw [List.reverse_append]
  simp only [List.reverse_cons, List.reverse_nil, List.nil_append,
    List.singleton_append]
  rfl

/-- C10 counterexample: with a prefix 2 bytes longer than the stored length,
the read count is `-2`; a buffered binary file raises
`ValueError: read length must be non-negative or -1` rather than reading to
end-of-file, so extraction raises instead of returning the claimed
`prefix + read-to-EOF` bytes. -/
theorem extract_overlong_pre_raises :
    extractData [0, 1, 2, 3] [(0, 1, [7, 7, 7])] = none
    ∧ extractData [0, 1, 2, 3] [(0, 1, [7, 7, 7])]
        ≠ some ([7, 7, 7] ++ List.drop 0 [0, 1, 2, 3]) := by
  decide

/-- C10 (amended): for a single-segment entry whose prefix is longer than
its stored length, the computed read count is negative; only the exact count
`-1` (prefix one byte longer) reads all bytes from the offset to
end-of-file, any more negative count raises `ValueError`; in either case the
result's length never equals `lng`, and `len(pre) ≤ lng` is exactly the
precondition under which a returned result has length `lng`. -/
theorem extract_single_overlong_pre (file : List Nat) (ofs lng : Nat)
    (pre : List Nat) (h : ofs + lng ≤ file.length) :
    (pre.length = lng + 1 →
      extractData file [(ofs, lng, pre)] = some (pre ++ file.drop ofs))
    ∧ (lng + 1 < pre.length → extractData file [(ofs, lng, pre)] = none)
    ∧ ∀ r, extractData file [(ofs, lng, pre)] = some r →
        (r.length = lng ↔ pre.length ≤ lng) := by
  have hred : extractData file [(ofs, lng, pre)]
      = (pyRead file ofs ((lng : Int) - pre.length)).map (fun d => pre ++ d) :=
    rfl
  refine ⟨?_, ?_, ?_⟩
  · intro hp
    rw [hred]
    have hm : ((lng : Int) - pre.length) = -1 := by omega
    rw [hm]
    simp [pyRead]
  · intro hp
    rw [hred]
    have h1 : ¬((lng : Int) - pre.length = -1) := by omega
    have h2 : ((lng : Int) - pre.length) < 0 := by omega
    simp only [pyRead, if_neg h1, if_pos h2]
    rfl
  · intro r hr
    rw [hred] at hr
    by_cases hp : pre.length ≤ lng
    · rw [pyRead_toNat file ofs lng pre hp] at hr
      have hr' : pre ++ pyReadN file ofs (lng - pre.length) = r := by
        simpa using hr
      have hlen : r.length = lng := by
        rw [← hr']
        simp only [pyReadN, List.length_append, List.length_take,
          List.length_drop]
        omega
      simp [hlen, hp]
    · push_neg at hp
      by_cases he : pre.length = lng + 1
      · have hm : ((lng : Int) - pre.length) = -1 := by omega
        rw [hm] at hr
        have hr' : pre ++ file.drop ofs = r := by
          simpa [pyRead] using hr
        have hlen : r.length = pre.length + (file.length - ofs) := by
          rw [← hr']
          simp
        constructor
        · intro h0
          omega
        · intro h0
          omega
      · have h1 : ¬((lng : Int) - pre.length = -1) := by omega
        have h2 : ((lng : Int) - pre.length) < 0 := by omega
        simp only [pyRead, if_neg h1, if_pos h2] at hr
        exact absurd hr (by simp)

/-- C10 witness: prefix exactly one byte longer than the length reads to
end-of-file. -/
theorem extract_single_overlong_pre_witness :
    (2 : Nat) + 1 ≤ ([1, 2, 3, 4, 5, 6] : List Nat).length
    ∧ extractData [1, 2, 3, 4, 5, 6] [(2, 1, [9, 9])]
        = some ([9, 9] ++ List.drop 2 [1, 2, 3, 4, 5, 6]) :=
  ⟨by decide,
   (extract_single_overlong_pre [1, 2, 3, 4, 5, 6] 2 1 [9, 9] (by decide)).1
     (by decide)⟩

end RpaKit
